import Mathlib

/-
Shallow embedding of `src/modelzoo/vision/pytorch/unet/input/Hdf5BaseDataProcessor.py`
(class `Hdf5BaseDataProcessor`). External collaborators — the `cm` distributed-runtime
module, `get_streaming_batch_size`, `create_worker_cache`, `normalize_tensor_transform`,
the Python `random` module's seeded shuffle, torch worker info, and the abstract sharding
methods — are modelled as uninterpreted functions supplied by an `Env` record: the code
under verification only calls into them, and each of them is a deterministic function of
its inputs in the source's semantics.
-/

namespace UNetHdf5

/-- Tensors are opaque to this component (all tensor math lives in external
collaborators), so they are represented by an abstract carrier. -/
abbrev Tensor := Int

/-- The value stored in `self.data_partitions` by `_worker_init_fn`; its structure is
opaque here (it is produced by the external sharding strategy). -/
abbrev Partitions := List String

/-- Torch worker info as visible via `torch.utils.data.get_worker_info()`:
`some (id, num_workers)` inside a worker process, `none` in the main process. -/
abbrev WorkerInfo := Option (Nat × Nat)

/-- The `torch.Generator` created in `create_dataloader`: its device string and the
seed it was last given via `manual_seed` (if any). -/
structure Generator where
  device : String
  seed : Option Int
  deriving DecidableEq, Repr

/-- The sampler passed to the data loader: `RandomSampler(self, generator=...)` or
`SequentialSampler(self)`. -/
inductive Sampler where
  | random (generator : Generator)
  | sequential
  deriving DecidableEq, Repr

/-- `mp_type` values selected in `__init__`. -/
inductive DType where
  | float32
  | float16
  | bfloat16
  deriving DecidableEq, Repr

/-- The `params` dict: required keys are plain fields, keys read with `params.get`
carry the source's default as a field default (absent key = default value). -/
structure Params where
  use_worker_cache : Bool
  data_dir : String
  num_classes : Nat
  normalize_data_method : Option String := none
  image_shape : Nat × Nat × Nat
  loss : String
  shuffle_seed : Option Int := none
  augment_data : Bool := true
  batch_size : Nat
  shuffle : Bool := true
  shuffle_buffer : Option Nat := none
  num_workers : Nat := 0
  drop_last : Bool := true
  prefetch_factor : Nat := 10
  persistent_workers : Bool := true
  mixed_precision : Bool := false
  use_bfloat16 : Bool
  use_fast_dataloader : Bool := false
  duplicate_act_worker_data : Bool := false

/-- Responses of the external collaborators during one run: the distributed runtime
(`cm`, `num_tasks`, `task_id`), streaming batch-size adjustment, the worker cache,
the normalization function, the seeded shuffle of Python's `random` module, the
abstract `_shard_files` result (new `num_examples` and `files_in_this_task`, possibly
depending on the processor state), and the worker-dimension sharding strategy. -/
structure Env where
  is_streamer : Bool
  is_appliance : Bool
  num_streamers : Nat
  streaming_rank : Nat
  numTasksFn : Nat
  taskIdFn : Nat
  getStreamingBatchSize : Nat → Nat
  createWorkerCache : String → String
  normalizeTensorTransform : Tensor → Option String → Tensor
  pythonShuffle : Int → List String → List String
  shardFilesResult : Bool → Nat × List String
  shardDatasetFn : WorkerInfo → Nat → Partitions

/-- Python truthiness for an optional string (`None` and `""` are falsy). -/
def strTruthy : Option String → Bool
  | none => false
  | some s => !s.isEmpty

/-- Python truthiness for an optional integer (`None` and `0` are falsy). -/
def intTruthy : Option Int → Bool
  | none => false
  | some n => n != 0

/-- Attribute state of a `Hdf5BaseDataProcessor` instance. `normalize_transform` is
`some f` when the attribute was created in `__init__` (the `transforms.Lambda`
wrapping `_apply_normalization`), `none` when it was never created;
`data_partitions` is `none` until `_worker_init_fn` assigns it. -/
structure Processor where
  data_dir : String
  num_classes : Nat
  normalize_data_method : Option String
  normalize_transform : Option (Tensor → Tensor)
  tgt_image_height : Nat
  tgt_image_width : Nat
  channels : Nat
  loss_type : String
  shuffle_seed : Option Int
  augment_data : Bool
  batch_size : Nat
  shuffle : Bool
  shuffle_buffer : Nat
  num_workers : Nat
  drop_last : Bool
  prefetch_factor : Nat
  persistent_workers : Bool
  mp_type : DType
  num_tasks : Nat
  task_id : Nat
  num_examples : Nat
  files_in_this_task : List String
  use_fast_dataloader : Bool
  duplicate_act_worker_data : Bool
  disable_sharding : Bool
  data_partitions : Option Partitions

/-- Result of `__init__`: the constructed instance plus the argument of the
`torch.manual_seed` call it performed, if it performed one. -/
structure InitResult where
  proc : Processor
  manual_seed_called : Option Int

/-- The part of `__init__` after the `use_worker_cache` guard, given the final
`data_dir` (lines 77-130 of the source). -/
def init_rest (env : Env) (params : Params) (data_dir : String) : InitResult :=
  let batch_size := env.getStreamingBatchSize params.batch_size
  { proc :=
      { data_dir := data_dir
        num_classes := params.num_classes
        normalize_data_method := params.normalize_data_method
        normalize_transform :=
          if strTruthy params.normalize_data_method then
            some (fun x => env.normalizeTensorTransform x params.normalize_data_method)
          else
            none
        tgt_image_height := params.image_shape.1
        tgt_image_width := params.image_shape.2.1
        channels := params.image_shape.2.2
        loss_type := params.loss
        shuffle_seed := params.shuffle_seed
        augment_data := params.augment_data
        batch_size := batch_size
        shuffle := params.shuffle
        shuffle_buffer := params.shuffle_buffer.getD (10 * batch_size)
        num_workers := params.num_workers
        drop_last := params.drop_last
        prefetch_factor := params.prefetch_factor
        persistent_workers := params.persistent_workers
        mp_type :=
          if params.mixed_precision then
            if params.use_bfloat16 then DType.bfloat16 else DType.float16
          else
            DType.float32
        num_tasks := if env.is_streamer then env.num_streamers else 1
        task_id := if env.is_streamer then env.streaming_rank else 0
        num_examples := 0
        files_in_this_task := []
        use_fast_dataloader := params.use_fast_dataloader
        duplicate_act_worker_data := params.duplicate_act_worker_data
        disable_sharding := false
        data_partitions := none }
    manual_seed_called :=
      if intTruthy params.shuffle_seed then params.shuffle_seed else none }

/-- `__init__` (lines 64-130): the `use_worker_cache` guard first — raising
`RuntimeError` for a streamer outside an appliance run, rerouting `data_dir`
through `create_worker_cache` for a streamer in an appliance run — then the
attribute assignments. -/
def init (env : Env) (params : Params) : Except String InitResult :=
  if params.use_worker_cache && env.is_streamer then
    if !env.is_appliance then
      Except.error "use_worker_cache not supported for non-appliance runs"
    else
      Except.ok (init_rest env params (env.createWorkerCache params.data_dir))
  else
    Except.ok (init_rest env params params.data_dir)

/-- `__len__` (lines 148-152): the number of examples on the task process. -/
def len (p : Processor) : Nat :=
  p.num_examples

/-- `_apply_normalization` (lines 218-221). -/
def apply_normalization (env : Env) (p : Processor) (x : Tensor) : Tensor :=
  env.normalizeTensorTransform x p.normalize_data_method

/-- Modelled from the spec: `_maybe_shard_dataset`, called at line 165, is not defined
in the file under `src/` (only the abstract `_shard_dataset(worker_id, num_workers)`
declaration appears there); the spec describes the concrete sharding strategy as an
external collaborator that partitions the dataset across the worker dimension. It is
modelled as an uninterpreted function of the torch worker info visible in the
process where it runs and of its `num_workers` argument. -/
def maybe_shard_dataset (env : Env) (info : WorkerInfo) (num_workers : Nat) : Partitions :=
  env.shardDatasetFn info num_workers

/-- `_worker_init_fn` (lines 154-165): reads torch worker info, falling back to
worker id 0 and one worker in single-process mode, and stores the sharding result
in `self.data_partitions`. The `worker_id` argument is overwritten by the body
before use, exactly as in the source. -/
def worker_init_fn (env : Env) (info : WorkerInfo) (p : Processor) (_worker_id : Nat) :
    Processor :=
  let num_workers :=
    match info with
    | some wi => wi.2
    | none => 1
  { p with data_partitions := some (maybe_shard_dataset env info num_workers) }

/-- Effect of `self._shard_files(is_training)` (line 171) on the instance: the
abstract method fills in `num_examples` and `files_in_this_task`; its concrete
output is taken from the environment. -/
def shard_files_update (env : Env) (p : Processor) (is_training : Bool) : Processor :=
  { p with
      num_examples := (env.shardFilesResult is_training).1
      files_in_this_task := (env.shardFilesResult is_training).2 }

/-- The dataset-size guard of `create_dataloader` (lines 174-178): sharding is
disabled when the batch size exceeds the per-task share of examples. -/
def sharding_check (env : Env) (p : Processor) : Processor :=
  if p.batch_size > p.num_examples / env.numTasksFn then
    { p with disable_sharding := true }
  else
    p

/-- The seed computed at lines 182-185: `task_id()` when `shuffle_seed is None`,
`shuffle_seed + task_id()` otherwise. -/
def shuffle_seed_value (shuffle_seed : Option Int) (task_id : Nat) : Int :=
  match shuffle_seed with
  | none => (task_id : Int)
  | some s => s + (task_id : Int)

/-- The shuffle/sampler branch of `create_dataloader` (lines 180-193), acting on the
instance and the freshly created generator: returns the updated instance, the
generator (seeded in the duplicate-data case), and the sampler handed to the
data loader. -/
def shuffle_branch (env : Env) (gen : Generator) (p : Processor) :
    Processor × Generator × Sampler :=
  if p.shuffle then
    if p.duplicate_act_worker_data || p.disable_sharding then
      let seed := shuffle_seed_value p.shuffle_seed env.taskIdFn
      let p' := { p with files_in_this_task := env.pythonShuffle seed p.files_in_this_task }
      let gen' := { gen with seed := some seed }
      (p', gen', Sampler.random gen')
    else
      (p, gen, Sampler.random gen)
  else
    (p, gen, Sampler.sequential)

/-- The observable outcome of `create_dataloader`: the final instance state, the
generator, the sampler, which loader class was used, and the keyword arguments
passed to the loader constructor (lines 195-216). -/
structure DataLoaderResult where
  proc : Processor
  generator : Generator
  sampler : Sampler
  use_fast : Bool
  batch_size : Nat
  drop_last : Bool
  num_workers : Nat
  prefetch_factor : Nat
  persistent_workers : Bool

/-- `create_dataloader` (lines 167-216): shard files, create a cpu generator, run the
size guard, the shuffle branch, construct the loader with the configured keyword
arguments (prefetch and persistence fall back to `2` and `False` when
`num_workers == 0`), and finally call `_worker_init_fn(0)` directly — with no torch
worker info, since it runs in the main process — when `num_workers == 0`. -/
def create_dataloader (env : Env) (p0 : Processor) (is_training : Bool) :
    DataLoaderResult :=
  let p1 := shard_files_update env p0 is_training
  let gen0 : Generator := { device := "cpu", seed := none }
  let p2 := sharding_check env p1
  let sb := shuffle_branch env gen0 p2
  let p3 := sb.1
  let p4 := if p3.num_workers == 0 then worker_init_fn env none p3 0 else p3
  { proc := p4
    generator := sb.2.1
    sampler := sb.2.2
    use_fast := p3.use_fast_dataloader
    batch_size := p3.batch_size
    drop_last := p3.drop_last
    num_workers := p3.num_workers
    prefetch_factor := if 0 < p3.num_workers then p3.prefetch_factor else 2
    persistent_workers := if 0 < p3.num_workers then p3.persistent_workers else false }

section Lemmas

/-- Shape of every successful `__init__`: the result is `init_rest` applied to the
worker-cache path or to the raw `params` path. -/
theorem init_ok_shape (env : Env) (params : Params) (r : InitResult)
    (h : init env params = Except.ok r) :
    r = init_rest env params (env.createWorkerCache params.data_dir) ∨
    r = init_rest env params params.data_dir := by
  unfold init at h
  split at h
  · split at h
    · cases h
    · cases h
      exact Or.inl rfl
  · cases h
    exact Or.inr rfl

@[simp]
theorem shard_files_update_num_examples (env : Env) (p : Processor) (t : Bool) :
    (shard_files_update env p t).num_examples = (env.shardFilesResult t).1 := rfl

@[simp]
theorem shard_files_update_files (env : Env) (p : Processor) (t : Bool) :
    (shard_files_update env p t).files_in_this_task = (env.shardFilesResult t).2 := rfl

@[simp]
theorem shard_files_update_batch_size (env : Env) (p : Processor) (t : Bool) :
    (shard_files_update env p t).batch_size = p.batch_size := rfl

@[simp]
theorem shard_files_update_num_workers (env : Env) (p : Processor) (t : Bool) :
    (shard_files_update env p t).num_workers = p.num_workers := rfl

@[simp]
theorem shard_files_update_shuffle (env : Env) (p : Processor) (t : Bool) :
    (shard_files_update env p t).shuffle = p.shuffle := rfl

@[simp]
theorem shard_files_update_shuffle_seed (env : Env) (p : Processor) (t : Bool) :
    (shard_files_update env p t).shuffle_seed = p.shuffle_seed := rfl

@[simp]
theorem shard_files_update_dup (env : Env) (p : Processor) (t : Bool) :
    (shard_files_update env p t).duplicate_act_worker_data = p.duplicate_act_worker_data :=
  rfl

@[simp]
theorem shard_files_update_disable (env : Env) (p : Processor) (t : Bool) :
    (shard_files_update env p t).disable_sharding = p.disable_sharding := rfl

@[simp]
theorem shard_files_update_drop_last (env : Env) (p : Processor) (t : Bool) :
    (shard_files_update env p t).drop_last = p.drop_last := rfl

@[simp]
theorem shard_files_update_prefetch (env : Env) (p : Processor) (t : Bool) :
    (shard_files_update env p t).prefetch_factor = p.prefetch_factor := rfl

@[simp]
theorem shard_files_update_persistent (env : Env) (p : Processor) (t : Bool) :
    (shard_files_update env p t).persistent_workers = p.persistent_workers := rfl

@[simp]
theorem sharding_check_disable (env : Env) (p : Processor) :
    (sharding_check env p).disable_sharding =
      (p.disable_sharding || decide (p.batch_size > p.num_examples / env.numTasksFn)) := by
  unfold sharding_check
  split <;> rename_i hc <;> simp [hc]

@[simp]
theorem sharding_check_files (env : Env) (p : Processor) :
    (sharding_check env p).files_in_this_task = p.files_in_this_task := by
  unfold sharding_check
  split <;> rfl

@[simp]
theorem sharding_check_batch_size (env : Env) (p : Processor) :
    (sharding_check env p).batch_size = p.batch_size := by
  unfold sharding_check
  split <;> rfl

@[simp]
theorem sharding_check_num_workers (env : Env) (p : Processor) :
    (sharding_check env p).num_workers = p.num_workers := by
  unfold sharding_check
  split <;> rfl

@[simp]
theorem sharding_check_shuffle (env : Env) (p : Processor) :
    (sharding_check env p).shuffle = p.shuffle := by
  unfold sharding_check
  split <;> rfl

@[simp]
theorem sharding_check_shuffle_seed (env : Env) (p : Processor) :
    (sharding_check env p).shuffle_seed = p.shuffle_seed := by
  unfold sharding_check
  split <;> rfl

@[simp]
theorem sharding_check_dup (env : Env) (p : Processor) :
    (sharding_check env p).duplicate_act_worker_data = p.duplicate_act_worker_data := by
  unfold sharding_check
  split <;> rfl

@[simp]
theorem sharding_check_drop_last (env : Env) (p : Processor) :
    (sharding_check env p).drop_last = p.drop_last := by
  unfold sharding_check
  split <;> rfl

@[simp]
theorem sharding_check_prefetch (env : Env) (p : Processor) :
    (sharding_check env p).prefetch_factor = p.prefetch_factor := by
  unfold sharding_check
  split <;> rfl

@[simp]
theorem sharding_check_persistent (env : Env) (p : Processor) :
    (sharding_check env p).persistent_workers = p.persistent_workers := by
  unfold sharding_check
  split <;> rfl

@[simp]
theorem sharding_check_use_fast (env : Env) (p : Processor) :
    (sharding_check env p).use_fast_dataloader = p.use_fast_dataloader := by
  unfold sharding_check
  split <;> rfl

@[simp]
theorem shuffle_branch_fst_disable (env : Env) (gen : Generator) (p : Processor) :
    (shuffle_branch env gen p).1.disable_sharding = p.disable_sharding := by
  unfold shuffle_branch
  split
  · split <;> rfl
  · rfl

@[simp]
theorem shuffle_branch_fst_num_workers (env : Env) (gen : Generator) (p : Processor) :
    (shuffle_branch env gen p).1.num_workers = p.num_workers := by
  unfold shuffle_branch
  split
  · split <;> rfl
  · rfl

@[simp]
theorem shuffle_branch_fst_batch_size (env : Env) (gen : Generator) (p : Processor) :
    (shuffle_branch env gen p).1.batch_size = p.batch_size := by
  unfold shuffle_branch
  split
  · split <;> rfl
  · rfl

@[simp]
theorem shuffle_branch_fst_drop_last (env : Env) (gen : Generator) (p : Processor) :
    (shuffle_branch env gen p).1.drop_last = p.drop_last := by
  unfold shuffle_branch
  split
  · split <;> rfl
  · rfl

@[simp]
theorem shuffle_branch_fst_prefetch (env : Env) (gen : Generator) (p : Processor) :
    (shuffle_branch env gen p).1.prefetch_factor = p.prefetch_factor := by
  unfold shuffle_branch
  split
  · split <;> rfl
  · rfl

@[simp]
theorem shuffle_branch_fst_persistent (env : Env) (gen : Generator) (p : Processor) :
    (shuffle_branch env gen p).1.persistent_workers = p.persistent_workers := by
  unfold shuffle_branch
  split
  · split <;> rfl
  · rfl

@[simp]
theorem shuffle_branch_fst_use_fast (env : Env) (gen : Generator) (p : Processor) :
    (shuffle_branch env gen p).1.use_fast_dataloader = p.use_fast_dataloader := by
  unfold shuffle_branch
  split
  · split <;> rfl
  · rfl

@[simp]
theorem worker_init_fn_disable (env : Env) (info : WorkerInfo) (p : Processor) (w : Nat) :
    (worker_init_fn env info p w).disable_sharding = p.disable_sharding := rfl

@[simp]
theorem worker_init_fn_files (env : Env) (info : WorkerInfo) (p : Processor) (w : Nat) :
    (worker_init_fn env info p w).files_in_this_task = p.files_in_this_task := rfl

@[simp]
theorem worker_init_fn_num_workers (env : Env) (info : WorkerInfo) (p : Processor) (w : Nat) :
    (worker_init_fn env info p w).num_workers = p.num_workers := rfl

theorem create_dataloader_generator (env : Env) (p : Processor) (t : Bool) :
    (create_dataloader env p t).generator =
      (shuffle_branch env { device := "cpu", seed := none }
        (sharding_check env (shard_files_update env p t))).2.1 := rfl

theorem create_dataloader_sampler_eq (env : Env) (p : Processor) (t : Bool) :
    (create_dataloader env p t).sampler =
      (shuffle_branch env { device := "cpu", seed := none }
        (sharding_check env (shard_files_update env p t))).2.2 := rfl

theorem create_dataloader_proc_disable (env : Env) (p : Processor) (t : Bool) :
    (create_dataloader env p t).proc.disable_sharding =
      (sharding_check env (shard_files_update env p t)).disable_sharding := by
  simp only [create_dataloader]
  split <;> simp

theorem create_dataloader_proc_files (env : Env) (p : Processor) (t : Bool) :
    (create_dataloader env p t).proc.files_in_this_task =
      (shuffle_branch env { device := "cpu", seed := none }
        (sharding_check env (shard_files_update env p t))).1.files_in_this_task := by
  simp only [create_dataloader]
  split <;> simp

@[simp]
theorem create_dataloader_batch_size (env : Env) (p : Processor) (t : Bool) :
    (create_dataloader env p t).batch_size = p.batch_size := by
  simp [create_dataloader]

@[simp]
theorem create_dataloader_drop_last (env : Env) (p : Processor) (t : Bool) :
    (create_dataloader env p t).drop_last = p.drop_last := by
  simp [create_dataloader]

@[simp]
theorem create_dataloader_num_workers (env : Env) (p : Processor) (t : Bool) :
    (create_dataloader env p t).num_workers = p.num_workers := by
  simp [create_dataloader]

@[simp]
theorem create_dataloader_prefetch (env : Env) (p : Processor) (t : Bool) :
    (create_dataloader env p t).prefetch_factor =
      if 0 < p.num_workers then p.prefetch_factor else 2 := by
  simp [create_dataloader]

@[simp]
theorem create_dataloader_persistent (env : Env) (p : Processor) (t : Bool) :
    (create_dataloader env p t).persistent_workers =
      if 0 < p.num_workers then p.persistent_workers else false := by
  simp [create_dataloader]

/-- In the duplicate-data / disabled-sharding branch with shuffling on, the one seed
computed at lines 182-185 both seeds the generator and drives the shuffle of
`files_in_this_task`. -/
theorem gen_seed_of_branch (env : Env) (p : Processor) (t : Bool)
    (hsh : p.shuffle = true)
    (hdup : p.duplicate_act_worker_data = true ∨
      (create_dataloader env p t).proc.disable_sharding = true) :
    (create_dataloader env p t).generator.seed =
      some (shuffle_seed_value p.shuffle_seed env.taskIdFn) ∧
    (create_dataloader env p t).proc.files_in_this_task =
      env.pythonShuffle (shuffle_seed_value p.shuffle_seed env.taskIdFn)
        (env.shardFilesResult t).2 := by
  rw [create_dataloader_proc_disable] at hdup
  have hcond :
      ((sharding_check env (shard_files_update env p t)).duplicate_act_worker_data ||
        (sharding_check env (shard_files_update env p t)).disable_sharding) = true := by
    rcases hdup with h | h
    · simp [h]
    · rw [h]
      simp
  rw [create_dataloader_generator, create_dataloader_proc_files]
  unfold shuffle_branch
  rw [if_pos (by simp [hsh]), if_pos hcond]
  simp

end Lemmas

section Theorems

/-- A concrete environment used by witnesses: a single non-streamer process. -/
def envW : Env :=
  { is_streamer := false
    is_appliance := false
    num_streamers := 1
    streaming_rank := 0
    numTasksFn := 1
    taskIdFn := 4
    getStreamingBatchSize := fun b => b
    createWorkerCache := fun s => s ++ "/cache"
    normalizeTensorTransform := fun x _ => x + 1
    pythonShuffle := fun _ files => files.reverse
    shardFilesResult := fun _ => (10, ["a", "b"])
    shardDatasetFn := fun _ n => [toString n] }

/-- Concrete params used by witnesses: shuffling with duplicated activation-worker
data and an explicit seed. -/
def paramsW : Params :=
  { use_worker_cache := false
    data_dir := "data"
    num_classes := 2
    normalize_data_method := some "zero_centered"
    image_shape := (4, 4, 1)
    loss := "bce"
    shuffle_seed := some 5
    batch_size := 2
    num_workers := 0
    use_bfloat16 := false
    duplicate_act_worker_data := true }

/-- The instance state `init envW paramsW` constructs. -/
def rW : InitResult := init_rest envW paramsW paramsW.data_dir

/-- C3: `__init__` raises `RuntimeError` exactly when `use_worker_cache` holds for a
streamer outside an appliance run; for a streamer in an appliance run the data
directory is rerouted through `create_worker_cache`, and otherwise it is taken
from `params` unchanged. -/
theorem C3_init_worker_cache_guard (env : Env) (params : Params) :
    ((∃ e, init env params = Except.error e) ↔
      (params.use_worker_cache = true ∧ env.is_streamer = true ∧ env.is_appliance = false)) ∧
    (∀ r, init env params = Except.ok r →
      ((params.use_worker_cache = true ∧ env.is_streamer = true ∧ env.is_appliance = true →
          r.proc.data_dir = env.createWorkerCache params.data_dir) ∧
       (¬(params.use_worker_cache = true ∧ env.is_streamer = true) →
          r.proc.data_dir = params.data_dir))) := by
  unfold init
  by_cases hu : params.use_worker_cache <;> by_cases hs : env.is_streamer <;>
    by_cases ha : env.is_appliance <;>
    simp [hu, hs, ha, init_rest]

/-- C9: immediately after `__init__`, `__len__` returns `0` and `files_in_this_task`
is empty; in a non-streamer process `num_tasks` is `1` and `task_id` is `0`. -/
theorem C9_fresh_state (env : Env) (params : Params) (r : InitResult)
    (h : init env params = Except.ok r) :
    len r.proc = 0 ∧ r.proc.files_in_this_task = [] ∧
      (env.is_streamer = false → r.proc.num_tasks = 1 ∧ r.proc.task_id = 0) := by
  have hfields : ∀ d, len (init_rest env params d).proc = 0 ∧
      (init_rest env params d).proc.files_in_this_task = [] ∧
      (env.is_streamer = false → (init_rest env params d).proc.num_tasks = 1 ∧
        (init_rest env params d).proc.task_id = 0) := by
    intro d
    refine ⟨rfl, rfl, fun hs => ?_⟩
    simp [init_rest, hs]
  unfold init at h
  split at h
  · split at h
    · cases h
    · cases h
      exact hfields _
  · cases h
    exact hfields _

/-- Witness for C9 at the concrete environment and params. -/
theorem C9_fresh_state_witness :
    len rW.proc = 0 ∧ rW.proc.files_in_this_task = [] ∧
      (envW.is_streamer = false → rW.proc.num_tasks = 1 ∧ rW.proc.task_id = 0) :=
  C9_fresh_state envW paramsW rW (by rfl)

/-- Witness for C3: with the cache guard off, `data_dir` comes from params unchanged. -/
theorem C3_init_worker_cache_guard_witness :
    rW.proc.data_dir = paramsW.data_dir := by
  obtain ⟨-, h2⟩ := C3_init_worker_cache_guard envW paramsW
  exact (h2 rW (by rfl)).2 (by decide)

/-- C1: in `create_dataloader`, with shuffling on and either
`duplicate_act_worker_data` or sharding disabled, a single seed — `task_id()` when
`shuffle_seed` is `None`, `shuffle_seed + task_id()` otherwise — both shuffles
`files_in_this_task` and seeds the sampler generator. -/
theorem C1_shuffle_seed_computation (env : Env) (p : Processor) (t : Bool)
    (hsh : p.shuffle = true)
    (hdup : p.duplicate_act_worker_data = true ∨
      (create_dataloader env p t).proc.disable_sharding = true) :
    (create_dataloader env p t).generator.seed =
      some (shuffle_seed_value p.shuffle_seed env.taskIdFn) ∧
    (create_dataloader env p t).proc.files_in_this_task =
      env.pythonShuffle (shuffle_seed_value p.shuffle_seed env.taskIdFn)
        (env.shardFilesResult t).2 ∧
    (p.shuffle_seed = none →
      shuffle_seed_value p.shuffle_seed env.taskIdFn = (env.taskIdFn : Int)) ∧
    (∀ s, p.shuffle_seed = some s →
      shuffle_seed_value p.shuffle_seed env.taskIdFn = s + (env.taskIdFn : Int)) := by
  obtain ⟨hg, hf⟩ := gen_seed_of_branch env p t hsh hdup
  refine ⟨hg, hf, fun hn => ?_, fun s hs => ?_⟩
  · rw [hn]
    rfl
  · rw [hs]
    rfl

/-- Witness for C1: seed `5 + 4 = 9` shuffles (reverses) the two files and seeds
the generator. -/
theorem C1_shuffle_seed_computation_witness :
    (create_dataloader envW rW.proc true).generator.seed = some 9 ∧
    (create_dataloader envW rW.proc true).proc.files_in_this_task = ["b", "a"] := by
  obtain ⟨hg, hf, -, -⟩ :=
    C1_shuffle_seed_computation envW rW.proc true (by rfl) (Or.inl (by rfl))
  refine ⟨?_, ?_⟩
  · rw [hg]
    rfl
  · rw [hf]
    rfl

/-- C2: one call to `create_dataloader` on a freshly initialized processor sets
`disable_sharding` exactly when `batch_size` exceeds `num_examples` (as filled in
by `_shard_files`) integer-divided by `num_tasks()`; otherwise it stays `False`
as set by `__init__`. -/
theorem C2_disable_sharding_iff (env : Env) (params : Params) (r : InitResult) (t : Bool)
    (h : init env params = Except.ok r) :
    r.proc.disable_sharding = false ∧
    ((create_dataloader env r.proc t).proc.disable_sharding = true ↔
      r.proc.batch_size > (env.shardFilesResult t).1 / env.numTasksFn) := by
  have hfalse : r.proc.disable_sharding = false := by
    rcases init_ok_shape env params r h with h' | h' <;> subst h' <;> rfl
  refine ⟨hfalse, ?_⟩
  rw [create_dataloader_proc_disable]
  simp [hfalse]

/-- Witness for C2 at the concrete environment and params. -/
theorem C2_disable_sharding_iff_witness :
    rW.proc.disable_sharding = false ∧
    ((create_dataloader envW rW.proc true).proc.disable_sharding = true ↔
      rW.proc.batch_size > (envW.shardFilesResult true).1 / envW.numTasksFn) :=
  C2_disable_sharding_iff envW paramsW rW true (by rfl)

/-- C4: task-dimension partitioning is deterministic — two runs of
`create_dataloader` on processors built from the same params under the same
distributed-runtime responses produce the same `files_in_this_task` order and the
same sampler generator seed. -/
theorem C4_task_partition_deterministic (env : Env) (params : Params)
    (r₁ r₂ : InitResult) (t : Bool)
    (h₁ : init env params = Except.ok r₁)
    (h₂ : init env params = Except.ok r₂) :
    (create_dataloader env r₁.proc t).proc.files_in_this_task =
      (create_dataloader env r₂.proc t).proc.files_in_this_task ∧
    (create_dataloader env r₁.proc t).generator.seed =
      (create_dataloader env r₂.proc t).generator.seed := by
  rw [h₁] at h₂
  injection h₂ with h₂
  rw [h₂]
  exact ⟨rfl, rfl⟩

/-- Witness for C4 at the concrete environment and params. -/
theorem C4_task_partition_deterministic_witness :
    (create_dataloader envW rW.proc true).proc.files_in_this_task =
      (create_dataloader envW rW.proc true).proc.files_in_this_task ∧
    (create_dataloader envW rW.proc true).generator.seed =
      (create_dataloader envW rW.proc true).generator.seed :=
  C4_task_partition_deterministic envW paramsW rW rW true (by rfl) (by rfl)

/-- C5: `_worker_init_fn` stores in `data_partitions` the worker-dimension sharding
result for the worker info read from torch (`num_workers = 1`, worker id `0` in
single-process mode), and `create_dataloader` invokes it directly — in the main
process, where no worker info exists — when `num_workers == 0`. -/
theorem C5_worker_partition (env : Env) (p : Processor) (info : WorkerInfo)
    (wid : Nat) (t : Bool) :
    (worker_init_fn env info p wid).data_partitions =
      some (maybe_shard_dataset env info
        (match info with
         | some wi => wi.2
         | none => 1)) ∧
    (p.num_workers = 0 →
      (create_dataloader env p t).proc.data_partitions =
        some (maybe_shard_dataset env none 1)) := by
  constructor
  · rfl
  · intro h0
    simp [create_dataloader, h0]
    rfl

/-- Witness for C5: a worker-info pair and the single-process case. -/
theorem C5_worker_partition_witness :
    (worker_init_fn envW (some (1, 3)) rW.proc 7).data_partitions =
      some (maybe_shard_dataset envW (some (1, 3)) 3) ∧
    (create_dataloader envW rW.proc true).proc.data_partitions =
      some (maybe_shard_dataset envW none 1) := by
  obtain ⟨h1, h2⟩ := C5_worker_partition envW rW.proc (some (1, 3)) 7 true
  exact ⟨h1, h2 (by rfl)⟩

/-- C6: the loader gets a `RandomSampler` driven by the cpu generator when shuffle
is on, a `SequentialSampler` when it is off, and receives the configured
`batch_size`, `drop_last` and `num_workers`. -/
theorem C6_sampler_config (env : Env) (p : Processor) (t : Bool) :
    (p.shuffle = true →
      (create_dataloader env p t).sampler =
        Sampler.random ((create_dataloader env p t).generator) ∧
      (create_dataloader env p t).generator.device = "cpu") ∧
    (p.shuffle = false →
      (create_dataloader env p t).sampler = Sampler.sequential) ∧
    (create_dataloader env p t).batch_size = p.batch_size ∧
    (create_dataloader env p t).drop_last = p.drop_last ∧
    (create_dataloader env p t).num_workers = p.num_workers := by
  refine ⟨fun hsh => ?_, fun hsh => ?_, by simp, by simp, by simp⟩
  · rw [create_dataloader_sampler_eq, create_dataloader_generator]
    unfold shuffle_branch
    rw [if_pos (by simp [hsh])]
    split
    · exact ⟨rfl, rfl⟩
    · exact ⟨rfl, rfl⟩
  · rw [create_dataloader_sampler_eq]
    unfold shuffle_branch
    rw [if_neg (by simp [hsh])]

/-- Witness for C6: shuffling on at the concrete environment and params. -/
theorem C6_sampler_config_witness :
    (create_dataloader envW rW.proc true).sampler =
      Sampler.random ((create_dataloader envW rW.proc true).generator) ∧
    (create_dataloader envW rW.proc true).batch_size = rW.proc.batch_size ∧
    (create_dataloader envW rW.proc true).drop_last = rW.proc.drop_last ∧
    (create_dataloader envW rW.proc true).num_workers = rW.proc.num_workers := by
  obtain ⟨h1, h2, h3, h4, h5⟩ := C6_sampler_config envW rW.proc true
  exact ⟨(h1 (by rfl)).1, h3, h4, h5⟩

/-- C7: a truthy `normalize_data_method` makes `__init__` install a normalization
transform computing `normalize_tensor_transform(x, normalize_data_method)`; a
falsy one leaves the attribute absent. -/
theorem C7_normalization (env : Env) (params : Params) (r : InitResult)
    (h : init env params = Except.ok r) :
    (strTruthy params.normalize_data_method = true →
      ∃ f, r.proc.normalize_transform = some f ∧
        ∀ x, f x = env.normalizeTensorTransform x params.normalize_data_method) ∧
    (strTruthy params.normalize_data_method = false →
      r.proc.normalize_transform = none) := by
  have key : ∀ d,
      (strTruthy params.normalize_data_method = true →
        ∃ f, (init_rest env params d).proc.normalize_transform = some f ∧
          ∀ x, f x = env.normalizeTensorTransform x params.normalize_data_method) ∧
      (strTruthy params.normalize_data_method = false →
        (init_rest env params d).proc.normalize_transform = none) := by
    intro d
    constructor
    · intro hm
      refine ⟨fun x => env.normalizeTensorTransform x params.normalize_data_method,
        ?_, fun x => rfl⟩
      simp [init_rest, hm]
    · intro hm
      simp [init_rest, hm]
  rcases init_ok_shape env params r h with h' | h' <;> subst h'
  · exact key _
  · exact key _

/-- Witness for C7: the installed transform agrees with the external
normalization function on a sample tensor. -/
theorem C7_normalization_witness :
    strTruthy paramsW.normalize_data_method = true ∧
    (rW.proc.normalize_transform.getD id) 3 =
      envW.normalizeTensorTransform 3 paramsW.normalize_data_method := by
  obtain ⟨h1, -⟩ := C7_normalization envW paramsW rW (by rfl)
  obtain ⟨f, hf, hx⟩ := h1 (by rfl)
  refine ⟨by rfl, ?_⟩
  rw [hf]
  exact hx 3

/-- C8: with `num_workers == 0` the loader is built with `prefetch_factor 2` and
`persistent_workers False` regardless of params; with `num_workers > 0` the
params values are passed through. -/
theorem C8_prefetch_persistent (env : Env) (params : Params) (r : InitResult) (t : Bool)
    (h : init env params = Except.ok r) :
    (r.proc.num_workers = 0 →
      (create_dataloader env r.proc t).prefetch_factor = 2 ∧
      (create_dataloader env r.proc t).persistent_workers = false) ∧
    (0 < r.proc.num_workers →
      (create_dataloader env r.proc t).prefetch_factor = params.prefetch_factor ∧
      (create_dataloader env r.proc t).persistent_workers = params.persistent_workers) := by
  have hpf : r.proc.prefetch_factor = params.prefetch_factor := by
    rcases init_ok_shape env params r h with h' | h' <;> subst h' <;> rfl
  have hpw : r.proc.persistent_workers = params.persistent_workers := by
    rcases init_ok_shape env params r h with h' | h' <;> subst h' <;> rfl
  constructor
  · intro h0
    simp [h0]
  · intro h0
    simp [h0, hpf, hpw]

/-- Witness for C8: `num_workers = 0` in the concrete params forces `2` and
`False`. -/
theorem C8_prefetch_persistent_witness :
    (create_dataloader envW rW.proc true).prefetch_factor = 2 ∧
    (create_dataloader envW rW.proc true).persistent_workers = false := by
  obtain ⟨h1, -⟩ := C8_prefetch_persistent envW paramsW rW true (by rfl)
  exact h1 (by rfl)

/-- Concrete params for C10: `shuffle_seed` present but equal to `0`. -/
def params₀ : Params := { paramsW with shuffle_seed := some 0 }

/-- The instance state `init envW params₀` constructs. -/
def r₀ : InitResult := init_rest envW params₀ params₀.data_dir

/-- C10: `shuffle_seed = 0` is falsy in `__init__` — `torch.manual_seed` is not
called — yet `create_dataloader` tests `is None`, so the duplicate-data branch
uses seed `0 + task_id()`. -/
theorem C10_zero_shuffle_seed (env : Env) (params : Params) (r : InitResult) (t : Bool)
    (hseed : params.shuffle_seed = some 0)
    (h : init env params = Except.ok r) :
    r.manual_seed_called = none ∧
    (r.proc.shuffle = true →
      (r.proc.duplicate_act_worker_data = true ∨
        (create_dataloader env r.proc t).proc.disable_sharding = true) →
      (create_dataloader env r.proc t).generator.seed =
        some ((0 : Int) + (env.taskIdFn : Int))) := by
  have hss : r.proc.shuffle_seed = some 0 := by
    rcases init_ok_shape env params r h with h' | h' <;> subst h' <;>
      simp [init_rest, hseed]
  have hmsc : r.manual_seed_called = none := by
    rcases init_ok_shape env params r h with h' | h' <;> subst h' <;>
      simp [init_rest, hseed, intTruthy]
  refine ⟨hmsc, fun hsh hdup => ?_⟩
  obtain ⟨hg, -⟩ := gen_seed_of_branch env r.proc t hsh hdup
  rw [hg, hss]
  rfl

/-- Witness for C10 at the concrete environment with `shuffle_seed = 0`. -/
theorem C10_zero_shuffle_seed_witness :
    r₀.manual_seed_called = none ∧
    (create_dataloader envW r₀.proc true).generator.seed =
      some ((0 : Int) + (envW.taskIdFn : Int)) := by
  obtain ⟨h1, h2⟩ := C10_zero_shuffle_seed envW params₀ r₀ true (by rfl) (by rfl)
  exact ⟨h1, h2 (by rfl) (Or.inl (by rfl))⟩

end Theorems

end UNetHdf5
